import Mathlib

/-!
Shallow embedding of the Twitchy chat-bot core (src/bot/bot.py,
src/bot/commands.py, src/data_types/user.py, src/data_types/events.py,
src/data_types/rpg/meta_game.py, src/data_types/rpg/items.py).

Timestamps are modelled as integers.  Calls to the wall clock
(`time.time()`) are passed in as explicit parameters; in particular the
Python dataclass defaults of `User` that call `time.time()` at class
definition time are modelled by an `importTime` parameter, and the
random draws used by `PlayerStats.new` / `PlayerStats.from_dict` are
modelled by explicit parameter bundles, since the pure model cannot
draw randomness.  Chat output is modelled by the inductive `Msg` type,
one constructor per distinct f-string the source can send.
-/

namespace Twitchy

set_option maxRecDepth 4000

/-- Permission level of a chatter (class Level, src/data_types/user.py). -/
inductive Level where
  | owner
  | mod
  | vip
  | user
deriving DecidableEq, Repr

/-- String value of a Level member (it is a str-valued Enum). -/
def Level.value : Level → String
  | .owner => "owner"
  | .mod => "mod"
  | .vip => "vip"
  | .user => "user"

/-- Python conversion Level(s): the member whose value is s, failure (ValueError) otherwise. -/
def Level.ofValue (s : String) : Option Level :=
  if s = "owner" then some .owner
  else if s = "mod" then some .mod
  else if s = "vip" then some .vip
  else if s = "user" then some .user
  else none

/-- Dice (src/data_types/rpg/dice.py): constructor argument order is (sides, count). -/
structure Dice where
  sides : Int
  count : Int
deriving DecidableEq, Repr

/-- Common shape of AttackItem and its subclasses Weapon and Spell (src/data_types/rpg/items.py). -/
structure AttackItem where
  name : String
  damage : Dice
  stat : String
  description : String
deriving DecidableEq, Repr

/-- Default Weapon(): the AttackItem dataclass defaults. -/
def Weapon.default : AttackItem :=
  { name := "Fist", damage := ⟨4, 1⟩, stat := "Strength", description := "WHAM!" }

/-- Default Spell(): the Spell dataclass defaults. -/
def Spell.default : AttackItem :=
  { name := "None", damage := ⟨0, 0⟩, stat := "Intelligence", description := "Fizzle..." }

/-- Common shape of StatItem and its subclasses Armor and Accessory (src/data_types/rpg/items.py). -/
structure StatItem where
  name : String
  stats : List Int
  armor : Int
deriving DecidableEq, Repr

/-- Default Armor(): the StatItem dataclass defaults. -/
def Armor.default : StatItem :=
  { name := "None", stats := [0, 0, 0, 0, 0, 0], armor := 0 }

/-- PlayerStats (src/data_types/rpg/meta_game.py).  The race enum member is
modelled by its string value, since `PlayerStats.from_dict` moves it around
without converting it. -/
structure PlayerStats where
  race : String
  strength : Int
  dexterity : Int
  constitution : Int
  intelligence : Int
  wisdom : Int
  charisma : Int
  max_health : Int
  current_health : Int
  max_mana : Int
  current_mana : Int
  experience : Int
  weapon : AttackItem
  spell : AttackItem
  armor : StatItem
  accessories : List StatItem
deriving DecidableEq, Repr

/-- Serialized form of a PlayerStats produced by dataclasses.asdict: every
field is present; a field is `none` only when the stored JSON object lacks
that key (hand-edited or partial data). -/
structure PlayerStatsDict where
  race : Option String
  strength : Option Int
  dexterity : Option Int
  constitution : Option Int
  intelligence : Option Int
  wisdom : Option Int
  charisma : Option Int
  max_health : Option Int
  current_health : Option Int
  max_mana : Option Int
  current_mana : Option Int
  experience : Option Int
  weapon : Option AttackItem
  spell : Option AttackItem
  armor : Option StatItem
  accessories : Option (List StatItem)
deriving DecidableEq, Repr

/-- dataclasses.asdict on a PlayerStats: all keys present. -/
def PlayerStats.toDict (p : PlayerStats) : PlayerStatsDict :=
  { race := some p.race
    strength := some p.strength
    dexterity := some p.dexterity
    constitution := some p.constitution
    intelligence := some p.intelligence
    wisdom := some p.wisdom
    charisma := some p.charisma
    max_health := some p.max_health
    current_health := some p.current_health
    max_mana := some p.max_mana
    current_mana := some p.current_mana
    experience := some p.experience
    weapon := some p.weapon
    spell := some p.spell
    armor := some p.armor
    accessories := some p.accessories }

/-- One bundle of the random draws `PlayerStats.from_dict` makes for its
fallback values: the drawn species and, per ability, the value of
`random.randint(8, 18) + SPECIES_LOOKUP[species][i]`. -/
structure PlayerStatsRand where
  race : String
  strength : Int
  dexterity : Int
  constitution : Int
  intelligence : Int
  wisdom : Int
  charisma : Int
deriving DecidableEq, Repr

/-- PlayerStats.from_dict (src/data_types/rpg/meta_game.py, lines 170-211).
Reads the twelve numeric/race keys with fallbacks; the constructor call
passes no weapon, spell, armor or accessories arguments, so those four
fields take the dataclass defaults Weapon(), Spell(), Armor(), []. -/
def PlayerStats.fromDict (r : PlayerStatsRand) (val : PlayerStatsDict) : PlayerStats :=
  let constitution := val.constitution.getD r.constitution
  let intelligence := val.intelligence.getD r.intelligence
  let max_health := val.max_health.getD (10 + constitution)
  let max_mana := val.max_mana.getD (10 + intelligence)
  { race := val.race.getD r.race
    strength := val.strength.getD r.strength
    dexterity := val.dexterity.getD r.dexterity
    constitution := constitution
    intelligence := intelligence
    wisdom := val.wisdom.getD r.wisdom
    charisma := val.charisma.getD r.charisma
    max_health := max_health
    current_health := val.current_health.getD max_health
    max_mana := max_mana
    current_mana := val.current_mana.getD max_mana
    experience := val.experience.getD 0
    weapon := Weapon.default
    spell := Spell.default
    armor := Armor.default
    accessories := [] }

/-- What one PlayerStats value becomes after a to_dict/from_dict round trip:
the numeric fields and race survive, the equipment fields reset to the
dataclass defaults because from_dict never reads them back. -/
def PlayerStats.reloaded (p : PlayerStats) : PlayerStats :=
  { p with
    weapon := Weapon.default
    spell := Spell.default
    armor := Armor.default
    accessories := [] }

/-- User record (src/data_types/user.py). -/
structure User where
  name : String
  level : Level
  last_chat : Int
  last_command : Int
  last_vote : Int
  last_battle : Int
  messages_sent : Int
  first_sighting : Int
  last_reroll : Int
  player_stats : PlayerStats
  bonks : Int
  hugs : Int
  points : Int
deriving DecidableEq, Repr

/-- ClassVar User.REROLL_DELAY = 2.592e6 seconds. -/
def User.REROLL_DELAY : Int := 2592000

/-- ClassVar User.COMMAND_DELAY = 60 seconds. -/
def User.COMMAND_DELAY : Int := 60

/-- ClassVar User.VIP_COMMAND_DELAY = 30 seconds. -/
def User.VIP_COMMAND_DELAY : Int := 30

/-- ClassVar User.VOTE_DELAY = 10000000 seconds. -/
def User.VOTE_DELAY : Int := 10000000

/-- The User dataclass constructor.  `importTime` stands for the value the
defaults `last_chat = time.time()` and `first_sighting = time.time()` got
when the module was imported, and `defaultStats` for the single
`PlayerStats.new()` the default was evaluated to; the remaining defaults
are the literal constants of the dataclass. -/
def User.new (importTime : Int) (defaultStats : PlayerStats)
    (name : String) (level : Level) (last_chat : Int) : User :=
  { name := name
    level := level
    last_chat := last_chat
    last_command := 0
    last_vote := 0
    last_battle := 0
    messages_sent := 0
    first_sighting := importTime
    last_reroll := 0
    player_stats := defaultStats
    bonks := 0
    hugs := 0
    points := 0 }

/-- User(username) with every default: level User, both timestamps the
import-time clock value. -/
def User.defaulted (importTime : Int) (defaultStats : PlayerStats) (name : String) : User :=
  User.new importTime defaultStats name .user importTime

/-- Serialized per-user object: the value part of User.to_dict, with a
field `none` exactly when the key is missing from the stored object. -/
structure UserDict where
  level : Option String
  last_chat : Option Int
  last_command : Option Int
  last_vote : Option Int
  last_battle : Option Int
  messages_sent : Option Int
  first_sighting : Option Int
  last_reroll : Option Int
  player_stats : Option PlayerStatsDict
  bonks : Option Int
  hugs : Option Int
  points : Option Int
deriving DecidableEq, Repr

/-- User.to_dict (src/data_types/user.py, lines 45-53): asdict of the record
minus the name, keyed by the name.  Every key is present. -/
def User.toDict (u : User) : String × UserDict :=
  (u.name,
   { level := some u.level.value
     last_chat := some u.last_chat
     last_command := some u.last_command
     last_vote := some u.last_vote
     last_battle := some u.last_battle
     messages_sent := some u.messages_sent
     first_sighting := some u.first_sighting
     last_reroll := some u.last_reroll
     player_stats := some u.player_stats.toDict
     bonks := some u.bonks
     hugs := some u.hugs
     points := some u.points })

/-- User.from_dict (src/data_types/user.py, lines 55-80).  `now` stands for
the `time.time()` calls made for missing optional timestamps, `psNew` for
the asdict of the fresh `PlayerStats.new()` used when the player_stats key
is missing, and `r` for the random fallback draws inside
`PlayerStats.from_dict`.  The constructor call passes no last_command,
last_vote or last_battle arguments, so those take the dataclass default 0.
Returns none when `Level(...)` would raise ValueError. -/
def User.fromDict (now : Int) (r : PlayerStatsRand) (psNew : PlayerStatsDict)
    (name : String) (vals : UserDict) : Option User :=
  (Level.ofValue (vals.level.getD "user")).map fun level =>
    { name := name
      level := level
      last_chat := vals.last_chat.getD now
      last_command := 0
      last_vote := 0
      last_battle := 0
      messages_sent := vals.messages_sent.getD 0
      first_sighting := vals.first_sighting.getD now
      last_reroll := vals.last_reroll.getD 0
      player_stats := PlayerStats.fromDict r (vals.player_stats.getD psNew)
      bonks := vals.bonks.getD 0
      hugs := vals.hugs.getD 0
      points := vals.points.getD 0 }

/-- A Python dict used as a map, modelled by its lookup function. -/
def mapSet {α : Type} (m : String → Option α) (k : String) (v : α) : String → Option α :=
  fun q => if q = k then some v else m q

/-- PollBotEvent (src/data_types/events.py, lines 72-133).  `choices` is the
insertion-ordered tally dict `{choice: 0 for choice in choices}`;
`one_shot` is always true for polls since `__init__` calls
`super().__init__(bot, timeout)` with the BotEvent default. -/
structure Poll where
  title : String
  choices : List (String × Nat)
  timeout : Int
  spawn_time : Int
  one_shot : Bool
deriving DecidableEq, Repr

/-- BroadcastBotEvent (src/data_types/events.py, lines 42-69). -/
structure Broadcast where
  message : String
  timeout : Int
  spawn_time : Int
  one_shot : Bool
  repeats : Int
  iterations : Int
deriving DecidableEq, Repr

/-- An entry of the Twitchy._events dict: Union[BotEvent, PollBotEvent]. -/
inductive BotEvent where
  | poll (p : Poll)
  | broadcast (b : Broadcast)
deriving DecidableEq, Repr

/-- The tally dict built by PollBotEvent.__init__: first occurrence of each
choice, in order, with tally 0. -/
def initChoices (choices : List String) : List (String × Nat) :=
  choices.foldl (fun acc c => if acc.any (fun p => p.1 == c) then acc else acc ++ [(c, 0)]) []

/-- PollBotEvent(bot, title, choices, timeout), spawned at `spawnTime`. -/
def Poll.new (spawnTime : Int) (title : String) (choices : List String) (timeout : Int) : Poll :=
  { title := title
    choices := initChoices choices
    timeout := timeout
    spawn_time := spawnTime
    one_shot := true }

/-- PollBotEvent.vote (src/data_types/events.py, lines 93-103): increments
the tally for `choice` if the key exists, silently does nothing otherwise. -/
def Poll.vote (p : Poll) (choice : String) : Poll :=
  if p.choices.any (fun q => q.1 == choice) then
    { p with choices := p.choices.map (fun q => if q.1 == choice then (q.1, q.2 + 1) else q) }
  else
    p

/-- BotEvent.timed_out (src/data_types/events.py, lines 22-30). -/
def Poll.timed_out (p : Poll) (now : Int) : Bool :=
  if p.timeout ≠ 0 then decide (now - p.spawn_time ≥ p.timeout) else false

/-- One iteration of the winner loop in PollBotEvent.finish (line 125):
`winner = (choice, count) if count > winner[1] else winner`. -/
def winnerStep (winner : String × Nat) (p : String × Nat) : String × Nat :=
  if p.2 > winner.2 then p else winner

/-- The winner accumulation loop of PollBotEvent.finish (lines 123-125):
starts from ("", 0) and replaces the accumulator only on a strictly
greater count. -/
def pollWinner (choices : List (String × Nat)) : String × Nat :=
  choices.foldl winnerStep ("", 0)

/-- The largest tally of a choice dict (0 when there are no choices). -/
def maxTally (choices : List (String × Nat)) : Nat :=
  choices.foldr (fun p m => max p.2 m) 0

/-- One chat message the bot can send, one constructor per f-string of the
modelled paths. -/
inductive Msg where
  | createdPoll (title : String)
  | alreadyPoll
  | thankYou (user : String) (choice : String)
  | notInPoll (choice : String)
  | wonAnnouncement (title : String) (winner : String) (votes : Nat)
deriving DecidableEq, Repr

/-- The registry dict Twitchy._stats, by its lookup function. -/
abbrev StatsMap := String → Option User

/-- The event dict Twitchy._events, by its lookup function. -/
abbrev EventsMap := String → Option BotEvent

/-- Result of PollBotEvent.finish: the optional announcement, the registry
after the system-wide last_vote reset, the poll with its spawn_time
update, and whether finish returned self (so the sweep removes it). -/
structure FinishResult where
  message : Option Msg
  stats : StatsMap
  poll : Poll
  removed : Bool

/-- PollBotEvent.finish (src/data_types/events.py, lines 116-133): fires when
timed out or when the timeout is 0; announces the winner of the
accumulation loop, resets every user record's last_vote to 0, then
returns self exactly when one_shot. -/
def Poll.finish (p : Poll) (now : Int) (stats : StatsMap) : FinishResult :=
  if p.timed_out now || (p.timeout == 0) then
    let winner := pollWinner p.choices
    { message := some (.wonAnnouncement p.title winner.1 winner.2)
      stats := fun k => (stats k).map (fun u => { u with last_vote := 0 })
      poll := { p with spawn_time := if p.one_shot then 0 else now }
      removed := p.one_shot }
  else
    { message := none, stats := stats, poll := p, removed := false }

/-- The mutable state of the bot that the modelled methods touch. -/
structure BotState where
  stats : StatsMap
  events : EventsMap

/-- Twitchy.add_event (src/bot/bot.py, lines 349-365): a plain dict
assignment inside try/except KeyError.  Assignment to a dict key never
raises KeyError, so the assignment always happens and the method always
returns True; the except branch is unreachable. -/
def add_event (events : EventsMap) (name : String) (event : BotEvent) : EventsMap × Bool :=
  (mapSet events name event, true)

/-- Twitchy.add_poll (src/bot/bot.py, lines 335-347): inserts under the
"current_poll" slot and announces depending on add_event's boolean. -/
def add_poll (events : EventsMap) (p : Poll) : EventsMap × Msg :=
  let r := add_event events "current_poll" (.poll p)
  (r.1, if r.2 then .createdPoll p.title else .alreadyPoll)

/-- Twitchy.update_poll (src/bot/bot.py, lines 367-383): looks the slot up,
votes and thanks the voter; a KeyError (raised only by the missing slot,
since vote never raises) is caught and answered with the
not-in-this-poll message.  A Broadcast in the slot has no vote method:
that AttributeError is not caught and propagates. -/
def update_poll (st : BotState) (user : String) (choice : String) :
    Except String (BotState × Msg) :=
  match st.events "current_poll" with
  | none => .ok (st, .notInPoll choice)
  | some (.poll p) =>
      .ok ({ st with events := mapSet st.events "current_poll" (.poll (p.vote choice)) },
           .thankYou user choice)
  | some (.broadcast _) => .error "AttributeError"

/-- Twitchy._update_user (src/bot/bot.py, lines 193-205): stamps last_chat
with the current time, increments messages_sent, and stores the record.
No other field is written; in particular last_command is not. -/
def update_user (now : Int) (stats : StatsMap) (user : User) : StatsMap :=
  let user := { user with last_chat := now, messages_sent := user.messages_sent + 1 }
  mapSet stats user.name user

/-- Twitchy.set_user_level (src/bot/bot.py, lines 296-308): writes the level
only when the current level is neither Mod nor Owner; a missing username
raises KeyError. -/
def set_user_level (stats : StatsMap) (username : String) (level : Level) :
    Except String StatsMap :=
  match stats username with
  | none => .error "KeyError"
  | some u =>
      if u.level = .mod ∨ u.level = .owner then .ok stats
      else .ok (mapSet stats username { u with level := level })

/-- The stats snapshot file as _load_stats can find it: missing, containing
text json.loads rejects, or a well-formed object of per-user objects. -/
inductive StatsFile where
  | absent
  | malformed
  | wellFormed (entries : List (String × UserDict))
deriving DecidableEq, Repr

/-- Twitchy._load_stats (src/bot/bot.py, lines 254-271).  A missing file is
first created holding `User(self._owner, Level.OWNER, time.time())`
serialized with to_dict; then the file is read and parsed with
json.loads, whose exception on malformed content is not caught, and each
entry goes through User.from_dict (whose Level conversion can raise
ValueError, also uncaught). -/
def load_stats (importTime : Int) (now : Int) (defaultStats : PlayerStats)
    (r : PlayerStatsRand) (psNew : PlayerStatsDict) (owner : String)
    (file : StatsFile) : Except String (List (String × User)) :=
  let fileAfter : StatsFile :=
    match file with
    | .absent => .wellFormed [User.toDict (User.new importTime defaultStats owner .owner now)]
    | f => f
  match fileAfter with
  | .absent => .error "unreachable"
  | .malformed => .error "JSONDecodeError"
  | .wellFormed entries =>
      match entries.mapM (fun kv => (User.fromDict now r psNew kv.1 kv.2).map fun u => (kv.1, u)) with
      | some loaded => .ok loaded
      | none => .error "ValueError"

/-- Tag naming each concrete Command subclass of src/data_types/commands.py. -/
inductive CommandTag where
  | onMessages
  | onRoll
  | onFirstSighting
  | onWhoAmI
  | onRerollMe
  | onBonk
  | onGetBonks
  | onHug
  | onGetHugs
  | onGetPoints
  | onVote
  | onGetCurrentPoll
  | onGetCommands
  | onSetVips
  | onCreatePoll
  | onSetBroadcast
  | onSetMods
  | onInvalid
  | onDelayNotMet
  | onHelp
deriving DecidableEq, Repr

/-- A Command value (src/data_types/commands.py, class Command): its handler
class and the description/example strings passed to the constructor. -/
structure Command where
  tag : CommandTag
  description : String
  «example» : String
deriving DecidableEq, Repr

/-- INVALID_COMMAND = OnInvalidCommand("ERROR", "") (src/bot/commands.py). -/
def INVALID_COMMAND : Command := ⟨.onInvalid, "ERROR", ""⟩

/-- DELAY_NOT_MET_COMMAND = OnDelayNotMetCommand("ERROR", ""). -/
def DELAY_NOT_MET_COMMAND : Command := ⟨.onDelayNotMet, "ERROR", ""⟩

/-- HELP_COMMAND = OnHelpCommand("HELP", ""). -/
def HELP_COMMAND : Command := ⟨.onHelp, "HELP", ""⟩

/-- The base `commands` dict of src/bot/commands.py, lines 32-60, in source
order. -/
def commands : List (String × Command) :=
  [("!messages", ⟨.onMessages, "Returns how many messages a user has sent", "!messages"⟩),
   ("!roll", ⟨.onRoll, "Rolls a die of format #dSides,", "!roll 2d20"⟩),
   ("!first_sighting",
    ⟨.onFirstSighting, "Gives the delta from the first time you were seen in chat",
     "!first_sighting"⟩),
   ("!who_am_i", ⟨.onWhoAmI, "Prints out the user\x27s stat sheet.", "!who_am_i"⟩),
   ("!reroll_me",
    ⟨.onRerollMe, "Rerolls your player stats. ONLY USUABLE ONCE A MONTH", "!reroll_me"⟩),
   ("!bonk", ⟨.onBonk, "Bonks someone!", "!bonk [user]"⟩),
   ("!bonked?", ⟨.onGetBonks, "How many times have you been bonked?", "!bonked?"⟩),
   ("!hug", ⟨.onHug, "Hugs someone!", "!hug [user]"⟩),
   ("!hugged?", ⟨.onGetHugs, "How many times have you been hugged?", "!hugged?"⟩),
   ("!points?", ⟨.onGetPoints, "How many points do you have?", "!points?"⟩),
   ("!vote", ⟨.onVote, "Votes for a poll choice!", "!vote [choice]"⟩),
   ("!current_poll", ⟨.onGetCurrentPoll, "Gets the current poll information!", "!current_poll"⟩),
   ("!commands",
    ⟨.onGetCommands,
     "Returns a link to the current user command sheet!Try using ![command] help for more info",
     "!commands"⟩)]

/-- The entries the `mod_commands` dict holds before
`mod_commands.update(commands)` runs (src/bot/commands.py, lines 62-75). -/
def mod_only_commands : List (String × Command) :=
  [("!set_vips",
    ⟨.onSetVips, "Sets user level to VIP.", "!set_vips [username1],[username2],[username3],..."⟩),
   ("!start_poll",
    ⟨.onCreatePoll, "Starts a new poll",
     "!start_poll [This_is_a_title] [choice1],[choice2],[choice3],... [duration]"⟩),
   ("!start_broadcast",
    ⟨.onSetBroadcast, "Begins broadcasting a a message after a certain delay",
     "!start_broadcast [message_goes_here] [delay] [repetitions]"⟩)]

/-- The entry the `owner_commands` dict holds before
`owner_commands.update(mod_commands)` runs (src/bot/commands.py, lines 77-82). -/
def owner_only_commands : List (String × Command) :=
  [("!set_mods",
    ⟨.onSetMods, "Sets bot mod level for all provided users.", "!set_mods [username1],[username2],..."⟩)]

/-- Lookup in mod_commands after `mod_commands.update(commands)`: an entry of
`commands` wins on a key clash (there is none). -/
def mod_commands (name : String) : Option Command :=
  (commands.lookup name).orElse fun _ => mod_only_commands.lookup name

/-- Lookup in owner_commands after `owner_commands.update(mod_commands)`. -/
def owner_commands (name : String) : Option Command :=
  (mod_commands name).orElse fun _ => owner_only_commands.lookup name

/-- Modelled from the spec: the module util.constants is not under src; §6
fixes the wire format as first whitespace token = command name, the rest
positional arguments, so SPLIT_COMMAND_NAME is index 0. -/
def SPLIT_COMMAND_NAME : Nat := 0

/-- Modelled from the spec: the module util.constants is not under src; by
§6 the arguments start at token index 1, so SPLIT_COMMAND_ARGS is 1. -/
def SPLIT_COMMAND_ARGS : Nat := 1

/-- Python str.upper for the ASCII alphabet. -/
def pyUpper (s : String) : String := String.mk (s.data.map Char.toUpper)

/-- Python str.split(sep) on a single-character separator, keeping empty
fields, over the character list. -/
def splitChars (sep : Char) : List Char → List (List Char)
  | [] => [[]]
  | c :: rest =>
      match splitChars sep rest with
      | w :: ws => if c = sep then [] :: w :: ws else (c :: w) :: ws
      | [] => [[c]]

/-- Python text.split(" "). -/
def pySplit (s : String) : List String := (splitChars ' ' s.data).map String.mk

/-- Python text.startswith(pre). -/
def pyStartsWith (pre : String) (s : String) : Bool := pre.data.isPrefixOf s.data

/-- Contiguous containment of one character list in another. -/
def charsContain (needle : List Char) : List Char → Bool
  | [] => needle.isPrefixOf []
  | c :: rest => needle.isPrefixOf (c :: rest) || charsContain needle rest

/-- The Python substring test `needle in hay`. -/
def pyContains (needle : String) (hay : String) : Bool :=
  charsContain needle.toList hay.toList

/-- The guard of the help branch inside execute_command (src/bot/bot.py,
lines 162-166): more than one token, and HELP_COMMAND.description is a
substring of the uppercased first argument token. -/
def isHelpRequest (split : List String) : Bool :=
  decide (1 < split.length)
    && pyContains HELP_COMMAND.description (pyUpper (split.getD SPLIT_COMMAND_ARGS ""))

/-- What the router did with a message: nothing (no command marker), the
delay-not-met handler with the arguments the code passes it, the help
handler holding the resolved command whose description and example it
formats, or a run of the resolved command on the argument tokens. -/
inductive Dispatch where
  | noCommand
  | delayNotMet (delta : Int) (level : Level)
  | helped (c : Command)
  | ran (c : Command) (args : List String)
deriving DecidableEq, Repr

/-- The local execute_command closure (src/bot/bot.py, lines 160-177): help
branch or a call of the resolved command on the remaining tokens.  The
surrounding try/except keeps handler exceptions from propagating; the
handler bodies themselves are outside this router model. -/
def execute_command (split : List String) (command_to_execute : Command) : Dispatch :=
  if isHelpRequest split then .helped command_to_execute
  else .ran command_to_execute (split.drop SPLIT_COMMAND_ARGS)

/-- Twitchy._handle_command (src/bot/bot.py, lines 136-191): privileged
levels resolve from their own table with no delay check; other levels
first compare now - last_command against the VIP or base delay and
dispatch DELAY_NOT_MET_COMMAND(delta, level) without resolving when the
delta does not exceed it. -/
def handle_command (now : Int) (user : User) (split : List String) (level : Level) : Dispatch :=
  if split.isEmpty then .noCommand
  else
    let user_command_delta : Int := now - user.last_command
    let command_name : String := split.getD SPLIT_COMMAND_NAME ""
    match level with
    | .owner => execute_command split ((owner_commands command_name).getD INVALID_COMMAND)
    | .mod => execute_command split ((mod_commands command_name).getD INVALID_COMMAND)
    | _ =>
        let delay : Int := if level = .vip then User.VIP_COMMAND_DELAY else User.COMMAND_DELAY
        if user_command_delta ≤ delay then .delayNotMet user_command_delta level
        else execute_command split ((commands.lookup command_name).getD INVALID_COMMAND)

/-- Twitchy._handle_message (src/bot/bot.py, lines 109-134): inserts an
all-defaults record for an unseen user, splits the text when it starts
with "!", picks the level (the owner name overrides; otherwise Mod when
the record says Mod, else Level.USER), runs the command path, and then
always runs _update_user on the record it fetched.  Handler side effects
on the registry are outside this model. -/
def handle_message (importTime : Int) (now : Int) (defaultStats : PlayerStats)
    (owner : String) (stats : StatsMap) (username : String) (text : String) :
    StatsMap × Dispatch :=
  let stats := if (stats username).isNone
    then mapSet stats username (User.defaulted importTime defaultStats username)
    else stats
  let user := (stats username).getD (User.defaulted importTime defaultStats username)
  let split : List String := if pyStartsWith "!" text then pySplit text else []
  let level : Level := if username = owner then .owner
    else if user.level = .mod then .mod
    else .user
  let dispatch := handle_command now user split level
  (update_user now stats user, dispatch)

/-- The cooldown the router applies to a non-privileged level
(src/bot/bot.py, lines 184-186). -/
def cooldown (level : Level) : Int :=
  if level = .vip then User.VIP_COMMAND_DELAY else User.COMMAND_DELAY

/-! Concrete fixtures used by the closed evaluation theorems and witnesses. -/

/-- A concrete PlayerStats value. -/
def ps0 : PlayerStats :=
  { race := "human", strength := 10, dexterity := 11, constitution := 12,
    intelligence := 13, wisdom := 14, charisma := 15, max_health := 22,
    current_health := 22, max_mana := 23, current_mana := 23, experience := 0,
    weapon := Weapon.default, spell := Spell.default, armor := Armor.default,
    accessories := [] }

/-- A concrete bundle of fallback draws. -/
def rand0 : PlayerStatsRand := ⟨"elf", 9, 9, 9, 9, 9, 9⟩

/-- A concrete asdict(PlayerStats.new()) fallback. -/
def psNew0 : PlayerStatsDict := ps0.toDict

/-- A poll already sitting in the "current_poll" slot. -/
def pollOld : Poll :=
  { title := "Old", choices := [("a", 3)], timeout := 0, spawn_time := 5, one_shot := true }

/-- A second poll inserted on top of the first. -/
def pollNew : Poll :=
  { title := "New", choices := [("x", 0), ("y", 0)], timeout := 60, spawn_time := 9,
    one_shot := true }

/-- An event table whose "current_poll" slot is occupied by pollOld. -/
def occupiedEvents : EventsMap :=
  fun k => if k = "current_poll" then some (.poll pollOld) else none

/-- A record with nonzero cooldown and vote timestamps for the round-trip
counterexample. -/
def roundtripUser : User :=
  { name := "alice", level := .user, last_chat := 7, last_command := 5, last_vote := 3,
    last_battle := 2, messages_sent := 4, first_sighting := 1, last_reroll := 0,
    player_stats := ps0, bonks := 6, hugs := 8, points := 9 }

/-- A registered User-level chatter whose last command ran at time 5. -/
def userBob : User :=
  { name := "bob", level := .user, last_chat := 50, last_command := 5, last_vote := 0,
    last_battle := 0, messages_sent := 7, first_sighting := 1, last_reroll := 0,
    player_stats := ps0, bonks := 0, hugs := 0, points := 0 }

/-- A registry holding exactly userBob. -/
def statsBob : StatsMap := fun k => if k = "bob" then some userBob else none

/-- A User-level chatter whose last command ran at time 50 (on cooldown at
time 100). -/
def userCooling : User :=
  { userBob with name := "cara", last_command := 50 }

/-- A User-level chatter long off cooldown at time 100. -/
def userReady : User :=
  { userBob with name := "dana", last_command := 0 }

/-- A one-choice poll, tally dict {"a": 0}. -/
def pollA : Poll :=
  { title := "Pets", choices := [("a", 0)], timeout := 0, spawn_time := 0, one_shot := true }

/-- A two-choice poll with distinct tallies. -/
def pollCD : Poll :=
  { title := "Pets", choices := [("c", 0), ("d", 0)], timeout := 0, spawn_time := 0,
    one_shot := true }

/-- Bot state with pollA in the "current_poll" slot and no users. -/
def stateWithPoll : BotState :=
  { stats := fun _ => none,
    events := fun k => if k = "current_poll" then some (.poll pollA) else none }

/-- A plain User-level record for the level-floor witness. -/
def userAlice : User := { userBob with name := "alice" }

/-- A registry holding exactly userAlice. -/
def statsAlice : StatsMap := fun k => if k = "alice" then some userAlice else none

/-- A poll with two choices tied at the positive top tally. -/
def tiePoll : Poll :=
  { title := "T", choices := [("cat", 2), ("dog", 2), ("bird", 1)], timeout := 0,
    spawn_time := 0, one_shot := true }

/-- A poll in which every tally is zero. -/
def zeroPoll : Poll :=
  { title := "T", choices := [("a", 0), ("b", 0)], timeout := 0, spawn_time := 0,
    one_shot := true }

/-- An empty bot state: no users, no events. -/
def emptyState : BotState := { stats := fun _ => none, events := fun _ => none }

/-! Helper lemmas about the winner accumulation loop. -/

/-- maxTally on a cons unfolds to a max. -/
@[simp] theorem maxTally_cons (q : String × Nat) (rest : List (String × Nat)) :
    maxTally (q :: rest) = max q.2 (maxTally rest) := rfl

/-- maxTally of the empty choice dict is 0. -/
@[simp] theorem maxTally_nil : maxTally [] = 0 := rfl

/-- Every tally is bounded by maxTally. -/
theorem tally_le_maxTally : ∀ (cs : List (String × Nat)) (p : String × Nat),
    p ∈ cs → p.2 ≤ maxTally cs := by
  intro cs
  induction cs with
  | nil => intro p hp; cases hp
  | cons q rest ih =>
      intro p hp
      rcases List.mem_cons.mp hp with h | h
      · rw [h, maxTally_cons]; exact le_max_left _ _
      · rw [maxTally_cons]; exact le_trans (ih p h) (le_max_right _ _)

/-- A positive maxTally is attained by some choice. -/
theorem exists_maxTally : ∀ (cs : List (String × Nat)),
    0 < maxTally cs → ∃ p ∈ cs, maxTally cs ≤ p.2 := by
  intro cs
  induction cs with
  | nil => intro h; rw [maxTally_nil] at h; exact absurd h (Nat.lt_irrefl 0)
  | cons q rest ih =>
      intro h
      rcases le_or_lt (maxTally rest) q.2 with hle | hlt
      · refine ⟨q, List.mem_cons_self _ _, ?_⟩
        rw [maxTally_cons]
        exact max_le le_rfl hle
      · have h0 : 0 < maxTally rest := lt_of_le_of_lt (Nat.zero_le _) hlt
        obtain ⟨p, hp, hple⟩ := ih h0
        refine ⟨p, List.mem_cons_of_mem _ hp, ?_⟩
        rw [maxTally_cons, max_eq_right hlt.le]
        exact hple

/-- The winner loop keeps its accumulator when no tally beats it. -/
theorem foldl_winner_const : ∀ (cs : List (String × Nat)) (acc : String × Nat),
    (∀ p ∈ cs, p.2 ≤ acc.2) → cs.foldl winnerStep acc = acc := by
  intro cs
  induction cs with
  | nil => intro acc _; rfl
  | cons q rest ih =>
      intro acc h
      have hq : q.2 ≤ acc.2 := h q (List.mem_cons_self _ _)
      have hstep : winnerStep acc q = acc := by
        unfold winnerStep; rw [if_neg (not_lt.mpr hq)]
      rw [List.foldl_cons, hstep]
      exact ih acc (fun p hp => h p (List.mem_cons_of_mem _ hp))

/-- When some member satisfies the predicate, find? returns something. -/
theorem find?_isSome_of_mem {α : Type} (pred : α → Bool) :
    ∀ (l : List α) (x : α), x ∈ l → pred x = true → ∃ b, l.find? pred = some b := by
  intro l
  induction l with
  | nil => intro x hx _; cases hx
  | cons a rest ih =>
      intro x hx hpx
      by_cases ha : pred a = true
      · exact ⟨a, List.find?_cons_of_pos _ ha⟩
      · rcases List.mem_cons.mp hx with h | h
        · rw [h] at hpx; exact absurd hpx ha
        · obtain ⟨b, hb⟩ := ih x h hpx
          exact ⟨b, by rw [List.find?_cons_of_neg _ ha]; exact hb⟩

/-- Once the maximum beats the accumulator, the winner loop lands on the
first choice whose tally reaches the maximum. -/
theorem foldl_winner_find : ∀ (cs : List (String × Nat)) (acc : String × Nat),
    acc.2 < maxTally cs →
    cs.foldl winnerStep acc = ((cs.find? fun p => decide (maxTally cs ≤ p.2)).getD acc) := by
  intro cs
  induction cs with
  | nil => intro acc h; rw [maxTally_nil] at h; exact absurd h (Nat.not_lt_zero _)
  | cons q rest ih =>
      intro acc hacc
      rcases le_or_lt (maxTally rest) q.2 with hle | hlt
      · have hM : maxTally (q :: rest) = q.2 := by
          rw [maxTally_cons]; exact max_eq_left hle
        have hgt : acc.2 < q.2 := by rw [hM] at hacc; exact hacc
        have hstep : winnerStep acc q = q := by unfold winnerStep; rw [if_pos hgt]
        have hfind : (q :: rest).find? (fun p => decide (maxTally (q :: rest) ≤ p.2)) = some q := by
          apply List.find?_cons_of_pos
          simp [hM]
        rw [List.foldl_cons, hstep, hfind, Option.getD_some]
        exact foldl_winner_const rest q (fun p hp => le_trans (tally_le_maxTally rest p hp) hle)
      · have hM : maxTally (q :: rest) = maxTally rest := by
          rw [maxTally_cons]; exact max_eq_right hlt.le
        have hq : ¬ ((fun p : String × Nat => decide (maxTally (q :: rest) ≤ p.2)) q = true) := by
          simp only [hM, decide_eq_true_eq]
          exact not_le.mpr hlt
        have hfind : (q :: rest).find? (fun p => decide (maxTally (q :: rest) ≤ p.2))
            = rest.find? (fun p => decide (maxTally (q :: rest) ≤ p.2)) :=
          List.find?_cons_of_neg _ hq
        have hpred : (fun p : String × Nat => decide (maxTally (q :: rest) ≤ p.2))
            = (fun p : String × Nat => decide (maxTally rest ≤ p.2)) := by
          funext p; rw [hM]
        have h0 : 0 < maxTally rest := lt_of_le_of_lt (Nat.zero_le _) hlt
        obtain ⟨w, hw, hwle⟩ := exists_maxTally rest h0
        obtain ⟨b, hb⟩ :=
          find?_isSome_of_mem (fun p : String × Nat => decide (maxTally rest ≤ p.2)) rest w hw
            (by simpa using hwle)
        rw [List.foldl_cons, hfind, hpred, hb]
        by_cases hcase : acc.2 < q.2
        · have hstep : winnerStep acc q = q := by unfold winnerStep; rw [if_pos hcase]
          rw [hstep, ih q hlt, hb]
          rfl
        · have hstep : winnerStep acc q = acc := by unfold winnerStep; rw [if_neg hcase]
          have hacc2 : acc.2 < maxTally rest := by rw [hM] at hacc; exact hacc
          rw [hstep, ih acc hacc2, hb]

/-- find? returns the first element satisfying the predicate: everything at a
smaller index fails it. -/
theorem find?_first_index {α : Type} (pred : α → Bool) :
    ∀ (l : List α) (b : α), l.find? pred = some b →
      ∃ i : Fin l.length, l.get i = b ∧ pred b = true ∧
        ∀ j : Fin l.length, j.1 < i.1 → pred (l.get j) = false := by
  intro l
  induction l with
  | nil => intro b h; simp [List.find?] at h
  | cons a rest ih =>
      intro b h
      by_cases ha : pred a = true
      · rw [List.find?_cons_of_pos _ ha] at h
        injection h with h
        refine ⟨⟨0, Nat.succ_pos _⟩, h, h ▸ ha, ?_⟩
        intro j hj
        exact absurd hj (Nat.not_lt_zero _)
      · rw [List.find?_cons_of_neg _ ha] at h
        obtain ⟨⟨v, hv⟩, hget, hpred, hfirst⟩ := ih b h
        refine ⟨⟨v + 1, Nat.succ_lt_succ hv⟩, hget, hpred, ?_⟩
        intro j hj
        rcases j with ⟨jv, hjv⟩
        cases jv with
        | zero =>
            show pred a = false
            cases hpa : pred a with
            | true => exact absurd hpa ha
            | false => rfl
        | succ k =>
            exact hfirst ⟨k, Nat.lt_of_succ_lt_succ hjv⟩ (Nat.lt_of_succ_lt_succ hj)

/-- C1: against the claim that add_event on an occupied slot returns failure
and performs no mutation, the code evaluated on an occupied "current_poll"
slot returns True, replaces the stored event (a different poll, with
different tallies and spawn time), and add_poll consequently announces a new
poll instead of "There is already a poll running!". -/
theorem add_event_overwrites_occupied_slot :
    occupiedEvents "current_poll" = some (.poll pollOld) ∧
    (add_event occupiedEvents "current_poll" (.poll pollNew)).2 = true ∧
    (add_event occupiedEvents "current_poll" (.poll pollNew)).1 "current_poll"
      = some (.poll pollNew) ∧
    BotEvent.poll pollNew ≠ BotEvent.poll pollOld ∧
    (add_poll occupiedEvents pollNew).2 = Msg.createdPoll "New" := by
  refine ⟨by decide, by decide, by decide, by decide, by decide⟩

/-- C2 counterexample: a record whose last_command is 5 serializes with that
value present, yet deserializing the very output returns last_command 0, so
a field present in the serialized form does not round-trip. -/
theorem user_roundtrip_drops_last_command :
    (User.toDict roundtripUser).2.last_command = some 5 ∧
    (User.fromDict 0 rand0 psNew0 (User.toDict roundtripUser).1
        (User.toDict roundtripUser).2).map (fun v => v.last_command) = some 0 ∧
    roundtripUser.last_command = 5 ∧ (0 : Int) ≠ 5 := by
  refine ⟨by decide, by decide, by decide, by decide⟩

/-- C2 amended: serializing any record with to_dict and deserializing with
from_dict reproduces every field except last_command, last_vote and
last_battle, which reset to the dataclass default 0 even though they were
serialized, and except the equipment part of player_stats (weapon, spell,
armor, accessories), which resets to the item defaults; absent optional
fields would default as documented (e.g. a missing last_chat to the
load-time clock), but to_dict always writes every field. -/
theorem user_roundtrip_amended (now : Int) (r : PlayerStatsRand)
    (psNew : PlayerStatsDict) (u : User) :
    User.fromDict now r psNew (User.toDict u).1 (User.toDict u).2 =
      some { u with last_command := 0, last_vote := 0, last_battle := 0,
                    player_stats := u.player_stats.reloaded } := by
  rcases u with ⟨name, level, lc, lcmd, lv, lb, ms, fs, lr, ps, b, h, p⟩
  cases level <;> rfl

/-- C3: against the claim that the message path updates lastCommandAt after a
successful dispatch of a real command, the evaluated path (user bob, off
cooldown, issuing the real command "!roll 2d6" at time 100) dispatches the
command and updates last_chat to 100 and messages_sent from 7 to 8, but
leaves last_command at its old value 5 instead of 100: _update_user never
writes last_command. -/
theorem message_path_leaves_last_command :
    (handle_message 1 100 ps0 "streamer" statsBob "bob" "!roll 2d6").2
      = .ran ⟨.onRoll, "Rolls a die of format #dSides,", "!roll 2d20"⟩ ["2d6"] ∧
    ((handle_message 1 100 ps0 "streamer" statsBob "bob" "!roll 2d6").1 "bob").map
      (fun u => u.last_command) = some 5 ∧
    ((handle_message 1 100 ps0 "streamer" statsBob "bob" "!roll 2d6").1 "bob").map
      (fun u => u.last_chat) = some 100 ∧
    ((handle_message 1 100 ps0 "streamer" statsBob "bob" "!roll 2d6").1 "bob").map
      (fun u => u.messages_sent) = some 8 ∧
    (5 : Int) ≠ 100 := by
  refine ⟨by decide, by decide, by decide, by decide, by decide⟩

/-- Reduction of the router on a nonempty command at User level. -/
theorem handle_command_user_cons (now : Int) (user : User) (s : String) (ss : List String) :
    handle_command now user (s :: ss) .user
      = if now - user.last_command ≤ User.COMMAND_DELAY
        then .delayNotMet (now - user.last_command) .user
        else execute_command (s :: ss)
          ((commands.lookup ((s :: ss).getD SPLIT_COMMAND_NAME "")).getD INVALID_COMMAND) := rfl

/-- Reduction of the router on a nonempty command at VIP level. -/
theorem handle_command_vip_cons (now : Int) (user : User) (s : String) (ss : List String) :
    handle_command now user (s :: ss) .vip
      = if now - user.last_command ≤ User.VIP_COMMAND_DELAY
        then .delayNotMet (now - user.last_command) .vip
        else execute_command (s :: ss)
          ((commands.lookup ((s :: ss).getD SPLIT_COMMAND_NAME "")).getD INVALID_COMMAND) := rfl

/-- C4: for a non-privileged invoker, the VIP cooldown (30) is strictly
shorter than the User cooldown (60); when now - last_command is at most the
cooldown of the level, the router dispatches the built-in delay-not-met
handler (with the delta and level the code passes it) and never reaches the
requested command; when the elapsed time exceeds the cooldown, the router
proceeds to execute_command on the command resolved from the base table;
and the post-dispatch bookkeeping step writes only last_chat and
messages_sent, leaving last_command (and every other field) unchanged. -/
theorem cooldown_gate (now : Int) (user : User) (split : List String) (level : Level)
    (hlevel : level = .user ∨ level = .vip) (hsplit : split ≠ []) :
    User.VIP_COMMAND_DELAY < User.COMMAND_DELAY ∧
    (now - user.last_command ≤ cooldown level →
      handle_command now user split level = .delayNotMet (now - user.last_command) level) ∧
    (cooldown level < now - user.last_command →
      handle_command now user split level
        = execute_command split
            ((commands.lookup (split.getD SPLIT_COMMAND_NAME "")).getD INVALID_COMMAND)) ∧
    (∀ stats : StatsMap, (update_user now stats user) user.name
        = some { user with last_chat := now, messages_sent := user.messages_sent + 1 }) := by
  refine ⟨by decide, ?_, ?_, ?_⟩
  · intro hd
    rcases split with _ | ⟨s, ss⟩
    · exact absurd rfl hsplit
    rcases hlevel with rfl | rfl
    · have hd' : now - user.last_command ≤ User.COMMAND_DELAY := hd
      rw [handle_command_user_cons, if_pos hd']
    · have hd' : now - user.last_command ≤ User.VIP_COMMAND_DELAY := hd
      rw [handle_command_vip_cons, if_pos hd']
  · intro hd
    rcases split with _ | ⟨s, ss⟩
    · exact absurd rfl hsplit
    rcases hlevel with rfl | rfl
    · have hd' : User.COMMAND_DELAY < now - user.last_command := hd
      rw [handle_command_user_cons, if_neg (not_le.mpr hd')]
    · have hd' : User.VIP_COMMAND_DELAY < now - user.last_command := hd
      rw [handle_command_vip_cons, if_neg (not_le.mpr hd')]
  · intro stats
    simp [update_user, mapSet]

/-- C4 witness: at time 100 a User-level invoker whose last command ran at
time 50 (delta 50, within the 60-second cooldown) exercises the theorem. -/
theorem cooldown_gate_witness :
    (Level.user = Level.user ∨ Level.user = Level.vip) ∧
    ((["!roll"] : List String) ≠ []) ∧
    (User.VIP_COMMAND_DELAY < User.COMMAND_DELAY ∧
     (100 - userCooling.last_command ≤ cooldown .user →
       handle_command 100 userCooling ["!roll"] .user
         = .delayNotMet (100 - userCooling.last_command) .user) ∧
     (cooldown .user < 100 - userCooling.last_command →
       handle_command 100 userCooling ["!roll"] .user
         = execute_command ["!roll"]
             ((commands.lookup (["!roll"].getD SPLIT_COMMAND_NAME "")).getD INVALID_COMMAND)) ∧
     (∀ stats : StatsMap, (update_user 100 stats userCooling) userCooling.name
         = some { userCooling with
                    last_chat := 100
                    messages_sent := userCooling.messages_sent + 1 })) :=
  ⟨Or.inl rfl, by decide,
   cooldown_gate 100 userCooling ["!roll"] .user (Or.inl rfl) (by decide)⟩

/-- C5: against the claim that voting for an undeclared choice reports a
"not a valid choice" failure, the evaluated code (a running poll with sole
choice "a", a vote for "b") leaves every tally unchanged but thanks the
voter as if the vote had counted; no failure is reported, because vote
silently ignores unknown keys and the "isn_t in this poll" message only
fires on a missing slot.  Voting for the declared choice does increment
exactly that tally. -/
theorem vote_undeclared_choice_no_failure :
    (update_poll stateWithPoll "carol" "b").toOption.map (fun r => r.2)
      = some (.thankYou "carol" "b") ∧
    (update_poll stateWithPoll "carol" "b").toOption.map
      (fun r => r.1.events "current_poll") = some (some (.poll pollA)) ∧
    (pollA.vote "b").choices = [("a", 0)] ∧
    (pollA.vote "a").choices = [("a", 1)] ∧
    (pollCD.vote "c").choices = [("c", 1), ("d", 0)] := by
  refine ⟨by decide, by decide, by decide, by decide, by decide⟩

/-- C6: set_user_level on a present record is a no-op (registry unchanged)
when the current level is Mod or Owner, and otherwise replaces exactly that
record's level with the requested one, leaving every other field intact. -/
theorem set_user_level_floor (stats : StatsMap) (username : String) (level : Level)
    (u : User) (hu : stats username = some u) :
    (u.level = .mod ∨ u.level = .owner →
      set_user_level stats username level = .ok stats) ∧
    (¬(u.level = .mod ∨ u.level = .owner) →
      set_user_level stats username level
        = .ok (mapSet stats username { u with level := level })) := by
  constructor
  · intro h
    simp only [set_user_level, hu]
    rw [if_pos h]
  · intro h
    simp only [set_user_level, hu]
    rw [if_neg h]

/-- C6 witness: a registry holding a User-level alice exercises the theorem
with a requested VIP level. -/
theorem set_user_level_floor_witness :
    statsAlice "alice" = some userAlice ∧
    ((userAlice.level = .mod ∨ userAlice.level = .owner →
       set_user_level statsAlice "alice" .vip = .ok statsAlice) ∧
     (¬(userAlice.level = .mod ∨ userAlice.level = .owner) →
       set_user_level statsAlice "alice" .vip
         = .ok (mapSet statsAlice "alice" { userAlice with level := .vip }))) :=
  ⟨by decide, set_user_level_floor statsAlice "alice" .vip userAlice (by decide)⟩

/-- C7 counterexample: on malformed file content _load_stats does not fall
back to empty/default state; the json.loads exception propagates (the load
fails instead of producing any registry). -/
theorem load_stats_malformed_raises :
    load_stats 0 0 ps0 rand0 psNew0 "streamer" .malformed = .error "JSONDecodeError" ∧
    load_stats 0 0 ps0 rand0 psNew0 "streamer" .malformed ≠ .ok [] :=
  ⟨rfl, fun h => Except.noConfusion h⟩

/-- C7 amended: a missing state file is not fatal, it is created seeded with
one Owner-level record for the configured owner (read back through the
serialization round trip, so with the equipment defaults of a reload); but
malformed content makes the load raise (the JSONDecodeError is uncaught)
rather than fall back to empty/default state. -/
theorem load_stats_amended (importTime now : Int) (defaultStats : PlayerStats)
    (r : PlayerStatsRand) (psNew : PlayerStatsDict) (owner : String) :
    load_stats importTime now defaultStats r psNew owner .absent
      = .ok [(owner, User.new importTime defaultStats.reloaded owner .owner now)] ∧
    load_stats importTime now defaultStats r psNew owner .malformed
      = .error "JSONDecodeError" := by
  exact ⟨rfl, rfl⟩

/-- C8 counterexample: in a poll whose choices "a" and "b" are tied at the
highest tally 0, finish announces the empty string with 0 votes, not the
first-declared choice "a": the winner loop starts from ("", 0) and only
replaces its accumulator on a strictly greater count. -/
theorem poll_finish_all_zero_empty_winner :
    (zeroPoll.finish 0 (fun _ => none)).message = some (.wonAnnouncement "T" "" 0) ∧
    ("" : String) ≠ "a" ∧ ("" : String) ≠ "b" := by
  refine ⟨by decide, by decide, by decide⟩

/-- C8 amended: whenever finish fires and the highest tally is positive (in
particular when two or more choices are tied at it), the announced winner is
the choice at the first position whose tally attains the maximum — every
earlier-declared choice has a strictly smaller tally — deterministically;
with an all-zero poll the loop instead keeps its ("", 0) seed. -/
theorem poll_finish_first_of_tied_max (p : Poll) (now : Int) (stats : StatsMap)
    (hfire : (p.timed_out now || (p.timeout == 0)) = true)
    (hpos : 0 < maxTally p.choices) :
    ∃ i : Fin p.choices.length,
      (p.finish now stats).message
        = some (.wonAnnouncement p.title (p.choices.get i).1 (p.choices.get i).2) ∧
      (p.choices.get i).2 = maxTally p.choices ∧
      ∀ j : Fin p.choices.length, j.1 < i.1 → (p.choices.get j).2 < maxTally p.choices := by
  obtain ⟨w, hw, hwle⟩ := exists_maxTally p.choices hpos
  obtain ⟨b, hb⟩ :=
    find?_isSome_of_mem (fun q : String × Nat => decide (maxTally p.choices ≤ q.2))
      p.choices w hw (by simpa using hwle)
  obtain ⟨i, hget, hpredb, hfirst⟩ := find?_first_index _ p.choices b hb
  have hwinner : pollWinner p.choices = b := by
    unfold pollWinner
    rw [foldl_winner_find p.choices ("", 0) hpos, hb]
    rfl
  have hmem : b ∈ p.choices := List.mem_of_find?_eq_some hb
  have hbmax : b.2 = maxTally p.choices :=
    le_antisymm (tally_le_maxTally p.choices b hmem) (by simpa using hpredb)
  refine ⟨i, ?_, ?_, ?_⟩
  · have hmsg : (p.finish now stats).message
        = some (.wonAnnouncement p.title (pollWinner p.choices).1 (pollWinner p.choices).2) := by
      unfold Poll.finish
      rw [if_pos hfire]
    rw [hmsg, hwinner, hget]
  · rw [hget]; exact hbmax
  · intro j hj
    have hfalse := hfirst j hj
    have : ¬ (maxTally p.choices ≤ (p.choices.get j).2) := by simpa using hfalse
    exact not_le.mp this

/-- C8 witness: the poll with choices cat and dog tied at tally 2 (and bird
at 1) exercises the theorem with a zero timeout. -/
theorem poll_finish_first_of_tied_max_witness :
    ((tiePoll.timed_out 0 || (tiePoll.timeout == 0)) = true) ∧
    (0 < maxTally tiePoll.choices) ∧
    (∃ i : Fin tiePoll.choices.length,
      (tiePoll.finish 0 (fun _ => none)).message
        = some (.wonAnnouncement tiePoll.title (tiePoll.choices.get i).1
            (tiePoll.choices.get i).2) ∧
      (tiePoll.choices.get i).2 = maxTally tiePoll.choices ∧
      ∀ j : Fin tiePoll.choices.length, j.1 < i.1 →
        (tiePoll.choices.get j).2 < maxTally tiePoll.choices) :=
  ⟨by decide, by decide,
   poll_finish_first_of_tied_max tiePoll 0 (fun _ => none) (by decide) (by decide)⟩

/-- C9 counterexample: with arguments ["helper"], whose first token does not
case-insensitively equal the help keyword (its uppercase differs from
HELP-uppercased "help"), the router still takes the help path — the check is
a substring test — dispatching the help handler on the resolved !messages
command instead of executing it. -/
theorem help_substring_trigger :
    handle_command 100 userReady ["!messages", "helper"] .user
      = .helped ⟨.onMessages, "Returns how many messages a user has sent", "!messages"⟩ ∧
    pyUpper "helper" ≠ pyUpper "help" ∧
    ("helper" : String) ≠ "help" := by
  refine ⟨by decide, by decide, by decide⟩

/-- C9 amended: the help path is taken if and only if there is at least one
argument token and the uppercased first argument token contains
HELP_COMMAND.description ("HELP") as a substring — containment, not
equality; in that case the help handler is dispatched carrying the resolved
command (whose description and usage it formats) and the resolved command
itself is not executed. -/
theorem help_iff_substring (now : Int) (user : User) (split : List String) :
    handle_command now user split .owner
        = .helped ((owner_commands (split.getD SPLIT_COMMAND_NAME "")).getD INVALID_COMMAND)
      ↔ (split ≠ [] ∧ isHelpRequest split = true) := by
  rcases split with _ | ⟨s, ss⟩
  · simp [handle_command]
  · by_cases hh : isHelpRequest (s :: ss) = true
    · simp [handle_command, execute_command, hh]
    · simp [handle_command, execute_command, hh]

/-- C10: when no event occupies the "current_poll" slot, update_poll catches
the KeyError, reports that the choice is not in this poll, and returns the
bot state unchanged — same event table, same user records. -/
theorem update_poll_missing_slot (st : BotState) (user : String) (choice : String)
    (h : st.events "current_poll" = none) :
    update_poll st user choice = .ok (st, .notInPoll choice) := by
  unfold update_poll
  rw [h]

/-- C10 witness: the empty bot state exercises the theorem. -/
theorem update_poll_missing_slot_witness :
    emptyState.events "current_poll" = none ∧
    update_poll emptyState "dave" "cats" = .ok (emptyState, .notInPoll "cats") :=
  ⟨rfl, update_poll_missing_slot emptyState "dave" "cats" rfl⟩

end Twitchy
